import Mathlib

/-!
Verification of the PDF annotation viewer frontend.

A shallow embedding of the rendering/overlay/interaction modules of the
`annotations` repository (files `pdfRenderer.js`, `state.js`, `controls.js`,
`annotationManager.js`), together with theorems settling the specification
claims about the render scheduler, the viewport transform, the drag-to-draw
interaction and the overlay redraw.

Conventions of the embedding:
* JS numbers that only ever hold integers (page numbers, ids, counters) are
  modelled as `ℤ`/`ℕ`; JS numbers used for coordinates and the zoom scale are
  modelled as `ℚ` (all scale arithmetic in the source is by exact quarter
  steps, and all coordinate arithmetic is field arithmetic, so `ℚ` is a
  faithful model of the double-precision values actually produced).
* The single mutable `state` object of `state.js` is the structure `World`.
  Externally visible side effects that the claims talk about are recorded in
  ghost fields of `World` (`rendersStarted`, `alerts`, `drawCalls`,
  `annotationListUpdates`); purely cosmetic DOM writes (button captions, the
  `page-num` label, CSS classes) are not modelled.
* PDF.js render tasks are modelled as entries of `World.tasks`, indexed by
  their position; `cancelCount` counts invocations of the task's `cancel()`
  handle and `settled` records the outcome its promise eventually delivered.
* A JS `TypeError` from dereferencing a `null` field of `state` is modelled
  with `Except Err`; the asynchronous resolution of `getPage` inside
  `renderPage` is flattened (the task is created as part of the `renderPage`
  call), which preserves every interleaving the claims quantify over because
  no event of the claims can observe the state between `getPage`'s
  resolution and the attachment of the task's completion handlers.
* The structure `Annot` embeds the source's annotation records (fields keep
  their source names).
-/

/-- Outcome delivered by a render task's completion promise
(`success` = the `.then` branch, `cancelled` = the `RenderingCancelledException`
branch of the `.catch`, `failure` = any other rejection). -/
inductive Outcome where
  | success
  | cancelled
  | failure
deriving DecidableEq, Repr

/-- A PDF.js render task as created by `page.render(renderContext)` in
`renderPage` (`pdfRenderer.js`): the page it rasterizes, how many times its
`cancel()` handle has been invoked, and (ghost) the outcome its promise
delivered, if it has settled. -/
structure RenderTask where
  page : ℤ
  cancelCount : ℕ
  settled : Option Outcome
deriving DecidableEq, Repr

/-- An annotation record as stored in `state.annotations`
(fetched from the backend's annotations endpoint). -/
structure Annot where
  id : ℤ
  page : ℤ
  x : ℚ
  y : ℚ
  width : ℚ
  height : ℚ
  value : String
deriving DecidableEq, Repr

/-- The global mutable `state` object of `state.js`, restricted to the fields
the rendering/overlay/interaction modules read or write, plus ghost fields
recording the externally visible effects (tasks created, alerts shown,
`drawAnnotations` invocations, annotation-list rebuilds). -/
structure World where
  pdfDoc : Option ℤ                -- `state.pdfDoc`, modelled by its `numPages`
  pageNum : ℤ                      -- `state.pageNum`
  scale : ℚ                        -- `state.scale`
  pageIsRendering : Bool           -- `state.pageIsRendering`
  pageNumIsPending : Option ℤ      -- `state.pageNumIsPending`
  currentRenderTask : Option ℕ     -- `state.currentRenderTask`, as a task id
  showAnnotations : Bool           -- `state.showAnnotations`
  documentId : Option ℤ            -- `state.documentId`
  annotations : List Annot         -- `state.annotations`
  highlightedAnnot : Option Annot  -- the highlighted-annotation field of `state`
  tasks : List RenderTask          -- ghost: every task ever created, by id
  rendersStarted : List ℤ          -- ghost: pages raster tasks were started for
  alerts : ℕ                       -- ghost: number of `alert(...)` calls
  drawCalls : List ℤ               -- ghost: pages `drawAnnotations` was called on
  annotationListUpdates : ℕ        -- ghost: number of `updateAnnotationList()` calls
deriving DecidableEq, Repr

/-- The literal `state.minScale` of `state.js`. -/
def minScale : ℚ := 1/2

/-- The literal `state.maxScale` of `state.js`. -/
def maxScale : ℚ := 3

/-- The null-dereference `TypeError` raised by reading a property of a `null`
field of `state` (e.g. `state.pdfDoc.numPages` with no document loaded). -/
inductive Err where
  | nullDeref
deriving DecidableEq, Repr

/-- Apply `f` to the task with id `tid` (helper for `cancel()` bookkeeping). -/
def updateTask (tid : ℕ) (f : RenderTask → RenderTask) : List RenderTask → List RenderTask
  | [] => []
  | t :: ts => if tid = 0 then f t :: ts else t :: updateTask (tid - 1) f ts

/-- The default task used with `List.getD` lookups. -/
def dfltTask : RenderTask := { page := 0, cancelCount := 0, settled := none }

/-- The initial viewer state of `state.js` (all fields at their literal
initializers), with `pdfDoc`/`documentId` as parameters so that the same
definition also describes the state right after `loadDocument` reset
`pageNum` and `scale`. -/
def initState (doc : Option ℤ) (docId : Option ℤ) : World :=
  { pdfDoc := doc
    pageNum := 1
    scale := 1
    pageIsRendering := false
    pageNumIsPending := none
    currentRenderTask := none
    showAnnotations := true
    documentId := docId
    annotations := []
    highlightedAnnot := none
    tasks := []
    rendersStarted := []
    alerts := 0
    drawCalls := []
    annotationListUpdates := 0 }

/-- Embedding of `renderPage(num)` (`pdfRenderer.js`): cancel the current
render task if there is one, set `pageIsRendering`, then (once `getPage`
resolves) size both surfaces and start a raster task for `num`.
Dereferencing `state.pdfDoc` with no document loaded raises a `TypeError`. -/
def renderPage (num : ℤ) (w : World) : Except Err World :=
  let w :=
    match w.currentRenderTask with
    | some tid =>
        { w with tasks :=
            updateTask tid (fun t => { t with cancelCount := t.cancelCount + 1 }) w.tasks }
    | none => w
  let w := { w with pageIsRendering := true }
  match w.pdfDoc with
  | none => .error .nullDeref
  | some _ =>
      let tid := w.tasks.length
      .ok { w with
              tasks := w.tasks ++ [{ page := num, cancelCount := 0, settled := none }]
              currentRenderTask := some tid
              rendersStarted := w.rendersStarted ++ [num] }

/-- Embedding of `queueRenderPage(num)` (`pdfRenderer.js`): while a render is
in flight, only record `num` as the pending page; otherwise render it now. -/
def queueRenderPage (num : ℤ) (w : World) : Except Err World :=
  if w.pageIsRendering then .ok { w with pageNumIsPending := some num }
  else renderPage num w

/-- Ghost bookkeeping: record the outcome a task's promise delivered. -/
def settleTask (tid : ℕ) (o : Outcome) (w : World) : World :=
  { w with tasks := updateTask tid (fun t => { t with settled := some o }) w.tasks }

/-- The `.then` completion handler attached in `renderPage` to the task `tid`
rendering page `num = tasks[tid].page`: clear the rendering flag and the task
handle, render the pending page if one was recorded (and only then clear the
pending slot), then call `drawAnnotations(num)`. -/
def onRenderSuccess (tid : ℕ) (w : World) : Except Err World :=
  let num := (w.tasks.getD tid dfltTask).page
  let w := settleTask tid .success w
  let w := { w with pageIsRendering := false, currentRenderTask := none }
  match w.pageNumIsPending with
  | some p => do
      let w ← renderPage p w
      let w := { w with pageNumIsPending := none }
      .ok { w with drawCalls := w.drawCalls ++ [num] }
  | none => .ok { w with drawCalls := w.drawCalls ++ [num] }

/-- The `RenderingCancelledException` branch of the `.catch` handler attached
in `renderPage`: `console.warn` only — no state mutation, no alert. -/
def onRenderCancelled (tid : ℕ) (w : World) : World :=
  settleTask tid .cancelled w

/-- The genuine-failure branch of the `.catch` handler attached in
`renderPage`: `console.error` and `alert(...)` only — no other mutation. -/
def onRenderFailure (tid : ℕ) (w : World) : World :=
  let w := settleTask tid .failure w
  { w with alerts := w.alerts + 1 }

/-- The prev-page click handler (`controls.js`): guard `pageNum <= 1`, then
decrement and `queueRenderPage(pageNum)`. -/
def onPrevClick (w : World) : Except Err World :=
  if w.pageNum ≤ 1 then .ok w
  else
    let w := { w with pageNum := w.pageNum - 1 }
    queueRenderPage w.pageNum w

/-- The next-page click handler (`controls.js`): the guard reads
`state.pdfDoc.numPages` unconditionally, so it throws when no document is
loaded; otherwise increment and `queueRenderPage(pageNum)`. -/
def onNextClick (w : World) : Except Err World :=
  match w.pdfDoc with
  | none => .error .nullDeref
  | some numPages =>
      if numPages ≤ w.pageNum then .ok w
      else
        let w := { w with pageNum := w.pageNum + 1 }
        queueRenderPage w.pageNum w

/-- The zoom-in click handler (`controls.js`): guard `scale >= maxScale`,
then `scale += 0.25` and `queueRenderPage(pageNum)`. -/
def onZoomInClick (w : World) : Except Err World :=
  if maxScale ≤ w.scale then .ok w
  else
    let w := { w with scale := w.scale + 1/4 }
    queueRenderPage w.pageNum w

/-- The zoom-out click handler (`controls.js`): guard `scale <= minScale`,
then `scale -= 0.25` and `queueRenderPage(pageNum)`. -/
def onZoomOutClick (w : World) : Except Err World :=
  if w.scale ≤ minScale then .ok w
  else
    let w := { w with scale := w.scale - 1/4 }
    queueRenderPage w.pageNum w

/-- The show-annotations toggle handler (`controls.js`): flip
`state.showAnnotations` (plus button caption and canvas CSS, not modelled)
and then call `renderPage(state.pageNum)` to refresh the view. -/
def onToggleShowAnnotations (w : World) : Except Err World :=
  let w := { w with showAnnotations := !w.showAnnotations }
  renderPage w.pageNum w

/-- One user click on the navigation/zoom controls. -/
inductive Click where
  | prev
  | next
  | zoomIn
  | zoomOut
deriving DecidableEq, Repr

/-- Dispatch a navigation/zoom click to its handler. -/
def applyClick (c : Click) (w : World) : Except Err World :=
  match c with
  | .prev => onPrevClick w
  | .next => onNextClick w
  | .zoomIn => onZoomInClick w
  | .zoomOut => onZoomOutClick w

/-- Run a sequence of navigation/zoom clicks from a state. -/
def runClicks : List Click → World → Except Err World
  | [], w => .ok w
  | c :: cs, w => (applyClick c w).bind (runClicks cs)

/-- One primitive drawing effect on the annotation canvas, as issued by
`drawAnnotations` through `state.annotationCtx`. -/
inductive DrawOp where
  | clear
  | strokeRect (x y w h lineWidth : ℚ) (color : String)
  | fillText (text : String) (x y : ℚ)
deriving DecidableEq, Repr

/-- The drawing effects `drawAnnotations` issues for one annotation
(`annotationManager.js`, body of the `forEach`): stroke the rectangle scaled
by `state.scale` with highlight-dependent width and color, then fill the
label text 5px right of and 5px below the scaled top-left corner. -/
def annotationOps (w : World) (ann : Annot) : List DrawOp :=
  let isHighlighted :=
    match w.highlightedAnnot with
    | some h => ann.id == h.id
    | none => false
  [ .strokeRect (ann.x * w.scale) (ann.y * w.scale)
      (ann.width * w.scale) (ann.height * w.scale)
      (if isHighlighted then 3 else 2)
      (if isHighlighted then "orange" else "red"),
    .fillText ann.value (ann.x * w.scale + 5) (ann.y * w.scale + 5) ]

/-- Embedding of `drawAnnotations(pageNum)` (`annotationManager.js`) as the
list of drawing effects it issues: clear the canvas and return if annotations
are hidden; otherwise clear and draw every annotation whose `page` equals
`pageNum`. -/
def drawAnnotations (pageNum : ℤ) (w : World) : List DrawOp :=
  if !w.showAnnotations then [.clear]
  else .clear :: (w.annotations.filter (fun a => a.page == pageNum)).flatMap (annotationOps w)

/-- The overlay redraw as the specification words it (the comparator for the
claim about `drawAnnotations`): first clear; if the toggle is off leave the
surface cleared; otherwise stroke exactly the annotations of the requested
page at their document rectangles scaled by the current scale — line width 2
and red stroke by default, line width 3 and orange stroke for the annotation
whose `id` equals the highlighted annotation's `id` — each followed by its
label text at a fixed 5px offset from the rectangle's top-left corner. -/
def drawAnnotationsSpec (pageNum : ℤ) (w : World) : List DrawOp :=
  if w.showAnnotations = false then [.clear]
  else
    .clear ::
      (w.annotations.filter (fun a => a.page == pageNum)).flatMap (fun a =>
        let topLeftX := a.x * w.scale
        let topLeftY := a.y * w.scale
        let highlighted : Bool :=
          match w.highlightedAnnot with
          | some h => decide (a.id = h.id)
          | none => false
        if highlighted then
          [ .strokeRect topLeftX topLeftY (a.width * w.scale) (a.height * w.scale) 3 "orange",
            .fillText a.value (topLeftX + 5) (topLeftY + 5) ]
        else
          [ .strokeRect topLeftX topLeftY (a.width * w.scale) (a.height * w.scale) 2 "red",
            .fillText a.value (topLeftX + 5) (topLeftY + 5) ])

/-- Embedding of `fetchAnnotations()` (`annotationManager.js`), parametrized
by the network response it would receive. The JS guard
`if (!state.documentId) return;` tests falsiness. The returned `Bool`
records whether a network request was issued. On a successful response the
annotation set is replaced, the list UI is rebuilt and the current page
re-rendered; on a failed fetch an alert is shown. -/
def fetchAnnotations (response : Except Unit (List Annot)) (w : World) :
    Except Err (World × Bool) :=
  let falsy := match w.documentId with
    | none => true
    | some i => i == 0
  if falsy then .ok (w, false)
  else
    match response with
    | .ok data =>
        let w := { w with annotations := data }
        let w := { w with annotationListUpdates := w.annotationListUpdates + 1 }
        (renderPage w.pageNum w).map (fun w2 => (w2, true))
    | .error _ => .ok ({ w with alerts := w.alerts + 1 }, true)

/-- The viewport parameters the specification quantifies over: zoom scale,
rotation in degrees and device pixel ratio. -/
structure Viewport where
  scale : ℚ
  rotation : ℕ
  dpr : ℚ
deriving DecidableEq, Repr

/-- The forward document-to-screen map actually used by the annotation drawing
code (`drawAnnotations` in `annotationManager.js`: `ann.x * state.scale`,
`ann.y * state.scale`). Rotation and device pixel ratio do not enter: the
canvas context's `setTransform(devicePixelRatio, ...)` absorbs the DPR and
the rasterized viewport absorbs the rotation, so overlay coordinates are CSS
pixels obtained by pure scaling. -/
def toScreen (p : ℚ × ℚ) (vp : Viewport) : ℚ × ℚ :=
  (p.1 * vp.scale, p.2 * vp.scale)

/-- The inverse screen-to-document map used by the pointer handlers
(`controls.js`: `(e.clientX - rect.left) / state.scale`, likewise for y). -/
def toDoc (q : ℚ × ℚ) (vp : Viewport) : ℚ × ℚ :=
  (q.1 / vp.scale, q.2 / vp.scale)

/-- The result of the overlay `mouseup` handler while a drag is live:
either the proposal is discarded locally as too small (alert, clear, redraw —
no network traffic), or a normalized rectangle proposal is handed to the
annotation-details modal. -/
inductive MouseUpResult where
  | tooSmall
  | proposal (x y width height : ℚ)
deriving DecidableEq, Repr

/-- The drag-to-draw geometry of `controls.js`: `mousedown` captures
`startX = (clientX - rect.left) / scale` (likewise y); `mouseup` computes the
end point the same way, forms `width = endX - startX`, `height = endY -
startY`, normalizes negative extents by shifting the origin and taking the
absolute value, and discards the proposal when `width < 10 || height < 10`.
Inputs are the canvas-relative client coordinates of the two pointer events
and the `state.scale` in effect during the drag. -/
def handleMouseUp (startClientX startClientY endClientX endClientY scale : ℚ) :
    MouseUpResult :=
  let startX := startClientX / scale
  let startY := startClientY / scale
  let endX := endClientX / scale
  let endY := endClientY / scale
  let x := startX
  let y := startY
  let width := endX - startX
  let height := endY - startY
  let x := if width < 0 then x + width else x
  let width := if width < 0 then |width| else width
  let y := if height < 0 then y + height else y
  let height := if height < 0 then |height| else height
  if width < 10 ∨ height < 10 then .tooSmall
  else .proposal x y width height

/-- The rectangle of the annotation POSTed to the backend, if any: the modal
follows only a `proposal` result, and the POST to the annotations endpoint
runs only when the user confirmed the modal. -/
def submittedRect (confirmed : Bool) (r : MouseUpResult) : Option (ℚ × ℚ × ℚ × ℚ) :=
  match r, confirmed with
  | .proposal x y w h, true => some (x, y, w, h)
  | _, _ => none

/-- Size in device pixels of a document-space length at the moment of
creation: document units are CSS pixels divided by `scale`, and CSS pixels
map to device pixels by the device pixel ratio. -/
def deviceSize (docLen scale dpr : ℚ) : ℚ :=
  docLen * scale * dpr

/-- The event trace of claim C1: a render of page 1 is in flight, page 2 is
requested meanwhile (recorded as pending), then the in-flight task's promise
rejects with a genuine (non-cancellation) failure. -/
def failureTrace : Except Err World := do
  let w ← renderPage 1 (initState (some 5) (some 7))
  let w ← queueRenderPage 2 w
  pure (onRenderFailure 0 w)

/-- The event trace of claim C2's counterexample: a render of page 1 is in
flight and a superseding request for page 2 arrives through
`queueRenderPage`. -/
def c2Trace : Except Err World :=
  (renderPage 1 (initState (some 5) (some 7))).bind (queueRenderPage 2)

/-- The starting point of claim C3's trace: a render of page 1 in flight on a
freshly loaded 5-page document. -/
def c3Start : Except Err World := renderPage 1 (initState (some 5) (some 7))

/-- The navigation invariant maintained by the click handlers: a loaded
document, a page number within range, and a scale that is a quarter-integer
within `[minScale, maxScale]`. -/
def NavInv (numPages : ℤ) (w : World) : Prop :=
  w.pdfDoc = some numPages ∧ 1 ≤ w.pageNum ∧ w.pageNum ≤ numPages ∧
  minScale ≤ w.scale ∧ w.scale ≤ maxScale ∧ ∃ k : ℤ, w.scale = k / 4

/-- The concrete state reached from a freshly loaded 3-page document by one
next-page click (used to witness the navigation-bounds theorem). -/
def c7w : World :=
  { pdfDoc := some 3
    pageNum := 2
    scale := 1
    pageIsRendering := true
    pageNumIsPending := none
    currentRenderTask := some 0
    showAnnotations := true
    documentId := none
    annotations := []
    highlightedAnnot := none
    tasks := [{ page := 2, cancelCount := 0, settled := none }]
    rendersStarted := [2]
    alerts := 0
    drawCalls := []
    annotationListUpdates := 0 }

/-- A concrete state with a raster task in flight: the result of
`renderPage(1)` from a freshly loaded 5-page document. -/
def inflightW : World :=
  { pdfDoc := some 5
    pageNum := 1
    scale := 1
    pageIsRendering := true
    pageNumIsPending := none
    currentRenderTask := some 0
    showAnnotations := true
    documentId := some 7
    annotations := []
    highlightedAnnot := none
    tasks := [{ page := 1, cancelCount := 0, settled := none }]
    rendersStarted := [1]
    alerts := 0
    drawCalls := []
    annotationListUpdates := 0 }

/-- The state after a direct `renderPage(3)` call on `inflightW`. -/
def directRenderW : World :=
  { pdfDoc := some 5
    pageNum := 1
    scale := 1
    pageIsRendering := true
    pageNumIsPending := none
    currentRenderTask := some 1
    showAnnotations := true
    documentId := some 7
    annotations := []
    highlightedAnnot := none
    tasks := [{ page := 1, cancelCount := 1, settled := none },
              { page := 3, cancelCount := 0, settled := none }]
    rendersStarted := [1, 3]
    alerts := 0
    drawCalls := []
    annotationListUpdates := 0 }

/-- The state after the show-annotations toggle fires on `inflightW`. -/
def toggledW : World :=
  { pdfDoc := some 5
    pageNum := 1
    scale := 1
    pageIsRendering := true
    pageNumIsPending := none
    currentRenderTask := some 1
    showAnnotations := false
    documentId := some 7
    annotations := []
    highlightedAnnot := none
    tasks := [{ page := 1, cancelCount := 1, settled := none },
              { page := 1, cancelCount := 0, settled := none }]
    rendersStarted := [1, 1]
    alerts := 0
    drawCalls := []
    annotationListUpdates := 0 }

/-- Length is preserved when a task entry is updated in place. -/
lemma updateTask_length (tid : ℕ) (f : RenderTask → RenderTask) (l : List RenderTask) :
    (updateTask tid f l).length = l.length := by
  induction l generalizing tid with
  | nil => rfl
  | cons t ts ih =>
      unfold updateTask
      by_cases h : tid = 0 <;> simp [h, ih]

/-- Reading back the task entry that was just updated yields the update. -/
lemma getD_updateTask_self (tid : ℕ) (f : RenderTask → RenderTask)
    (l : List RenderTask) (h : tid < l.length) :
    (updateTask tid f l).getD tid dfltTask = f (l.getD tid dfltTask) := by
  induction l generalizing tid with
  | nil => simp at h
  | cons t ts ih =>
      unfold updateTask
      match tid with
      | 0 => simp
      | tid' + 1 =>
          simp only [Nat.succ_ne_zero, if_false, Nat.add_sub_cancel]
          simpa using ih tid' (by simpa using h)

/-- A successful `renderPage` leaves the navigation fields alone, records the
new raster task and marks rendering in progress. -/
lemma renderPage_ok_fields {n : ℤ} {w w' : World} (h : renderPage n w = .ok w') :
    w'.pdfDoc = w.pdfDoc ∧ w'.pageNum = w.pageNum ∧ w'.scale = w.scale ∧
    w'.showAnnotations = w.showAnnotations ∧ w'.documentId = w.documentId ∧
    w'.pageIsRendering = true ∧ w'.rendersStarted = w.rendersStarted ++ [n] := by
  unfold renderPage at h
  cases hcur : w.currentRenderTask <;> rw [hcur] at h <;>
    cases hdoc : w.pdfDoc <;> simp [hdoc] at h <;> subst h <;> simp [hdoc]

/-- With a document loaded, `renderPage` always succeeds. -/
lemma renderPage_total {n : ℤ} {w : World} (h : w.pdfDoc.isSome) :
    ∃ w', renderPage n w = .ok w' := by
  unfold renderPage
  cases hcur : w.currentRenderTask <;> cases hdoc : w.pdfDoc <;>
    simp [hdoc] <;> simp [hdoc] at h

/-- A direct `renderPage` call while a task handle is current invokes that
task's `cancel()` exactly once. -/
lemma renderPage_cancels {n : ℤ} {w w' : World} {tid : ℕ}
    (hcur : w.currentRenderTask = some tid) (hlt : tid < w.tasks.length)
    (h : renderPage n w = .ok w') :
    (w'.tasks.getD tid dfltTask).cancelCount =
      (w.tasks.getD tid dfltTask).cancelCount + 1 := by
  unfold renderPage at h
  rw [hcur] at h
  cases hdoc : w.pdfDoc <;> simp [hdoc] at h
  subst h
  simp only
  rw [List.getD_append _ _ _ _ (by rw [updateTask_length]; exact hlt),
    getD_updateTask_self _ _ _ hlt]

/-- Claim C1 (code bug): the genuine-failure branch of the render task's
completion handler only raises an alert; it does not reset
`pageIsRendering`, does not clear the task handle and does not honor the
recorded pending page. Concretely, after a render of page 1 fails while
page 2 is pending, the scheduler is stuck off-Idle: `pageIsRendering` is
still `true`, only the page-1 render was ever started, and a further page
request merely overwrites the pending slot without ever rendering. The
specification instead requires a transition back to Idle with the pending
page honored. -/
theorem renderFailure_leaves_scheduler_stuck :
    failureTrace.map
        (fun w => (w.pageIsRendering, w.pageNumIsPending, w.rendersStarted, w.alerts))
      = .ok (true, some 2, [1], 1) ∧
    (failureTrace.bind (queueRenderPage 3)).map
        (fun w => (w.pageIsRendering, w.pageNumIsPending, w.rendersStarted, w.drawCalls))
      = .ok (true, some 3, [1], []) := by
  exact ⟨rfl, rfl⟩

/-- Claim C2 (counterexample): a superseding `queueRenderPage(2)` arriving
while the page-1 task is in flight does not invoke the in-flight task's
cancellation handle (its `cancelCount` stays 0 and no new task is started);
the predecessor then runs to completion (`settled = success`) and only
afterwards does the page-2 render start. This refutes the claim that the
in-flight task's cancellation handle is invoked before the next task is
started whenever a new page request arrives. -/
theorem queueRenderPage_inflight_not_cancelled :
    c2Trace.map World.tasks = .ok [{ page := 1, cancelCount := 0, settled := none }] ∧
    (c2Trace.bind (onRenderSuccess 0)).map
        (fun w => ((w.tasks.getD 0 dfltTask).settled, w.rendersStarted))
      = .ok (some .success, [1, 2]) := by
  exact ⟨rfl, rfl⟩

/-- Claim C2 (amended): a page request arriving through `queueRenderPage`
while a render is in flight never cancels the in-flight task — it only
overwrites the single pending slot with the new page, and the in-flight task
runs to completion before the pending page is rendered. The in-flight task's
cancellation handle is invoked (exactly once) only when `renderPage` is
called directly — by the visibility/mode toggles, document load, annotation
refresh or window resize — while its handle is still current. -/
theorem coalescing_defers_and_direct_render_cancels :
    (∀ (w : World) (n : ℤ), w.pageIsRendering = true →
        queueRenderPage n w = .ok { w with pageNumIsPending := some n }) ∧
    (∀ (w w' : World) (n : ℤ) (tid : ℕ), w.currentRenderTask = some tid →
        tid < w.tasks.length → renderPage n w = .ok w' →
        (w'.tasks.getD tid dfltTask).cancelCount =
          (w.tasks.getD tid dfltTask).cancelCount + 1) := by
  constructor
  · intro w n h
    simp [queueRenderPage, h]
  · intro w w' n tid hcur hlt h
    exact renderPage_cancels hcur hlt h

/-- Witness for the amended claim C2, at the concrete in-flight state
`inflightW`: a queued request for page 9 only records the pending page, and
a direct `renderPage(3)` increments the in-flight task's cancel count. -/
theorem coalescing_defers_and_direct_render_cancels_witness :
    queueRenderPage 9 inflightW = .ok { inflightW with pageNumIsPending := some 9 } ∧
    (directRenderW.tasks.getD 0 dfltTask).cancelCount =
      (inflightW.tasks.getD 0 dfltTask).cancelCount + 1 :=
  ⟨coalescing_defers_and_direct_render_cancels.1 inflightW 9 rfl,
   coalescing_defers_and_direct_render_cancels.2 inflightW directRenderW 3 0 rfl
     (by decide) rfl⟩

/-- Claim C3 (confirmed): with a render of page 1 in flight, requests for
pages 2, 3 and 4 each overwrite the single pending slot (2, then 3, then 4);
when the page-1 task completes successfully, exactly one subsequent render is
started, for page 4 only, and after it completes no further render starts —
the raster tasks ever started are exactly for pages 1 and 4. -/
theorem coalescing_renders_only_last_request :
    (c3Start.bind (queueRenderPage 2)).map World.pageNumIsPending = .ok (some 2) ∧
    ((c3Start.bind (queueRenderPage 2)).bind (queueRenderPage 3)).map
        World.pageNumIsPending = .ok (some 3) ∧
    (((c3Start.bind (queueRenderPage 2)).bind (queueRenderPage 3)).bind
        (queueRenderPage 4)).map World.pageNumIsPending = .ok (some 4) ∧
    ((((c3Start.bind (queueRenderPage 2)).bind (queueRenderPage 3)).bind
        (queueRenderPage 4)).bind (onRenderSuccess 0)).map
        (fun w => (w.rendersStarted, w.pageNumIsPending)) = .ok ([1, 4], none) ∧
    (((((c3Start.bind (queueRenderPage 2)).bind (queueRenderPage 3)).bind
        (queueRenderPage 4)).bind (onRenderSuccess 0)).bind (onRenderSuccess 1)).map
        (fun w => (w.rendersStarted, w.drawCalls, w.pageIsRendering)) =
      .ok ([1, 4], [1, 4], false) := by
  exact ⟨rfl, rfl, rfl, rfl, rfl⟩

/-- Claim C6 (counterexample): toggling "show annotations" at the concrete
in-flight state invokes the in-flight raster task's cancellation handle
(`cancelCount` becomes 1) and starts a fresh raster task for the current page
(`rendersStarted` grows), contradicting the claim that any in-flight render
task and the raster surface are left unmodified; scale and page are indeed
unchanged. -/
theorem toggleShowAnnotations_cancels_inflight_task :
    ((renderPage 1 (initState (some 5) (some 7))).bind onToggleShowAnnotations).map
        (fun w => ((w.tasks.getD 0 dfltTask).cancelCount, w.rendersStarted,
          w.scale, w.pageNum, w.showAnnotations))
      = .ok (1, [1, 1], 1, 1, false) := by
  exact rfl

/-- Claim C6 (amended): toggling "show annotations" flips the
`showAnnotations` flag and leaves the scale and the current page unchanged,
but it triggers a full `renderPage(currentPage)`: any in-flight raster task
is cancelled and a new raster task re-rasterizes the current page; only the
overlay's subsequent clear/draw behavior depends on the flag. -/
theorem toggleShowAnnotations_effects :
    ∀ (w w' : World), onToggleShowAnnotations w = .ok w' →
      w'.scale = w.scale ∧ w'.pageNum = w.pageNum ∧
      w'.showAnnotations = !w.showAnnotations ∧
      w'.rendersStarted = w.rendersStarted ++ [w.pageNum] ∧
      ∀ tid, w.currentRenderTask = some tid → tid < w.tasks.length →
        (w'.tasks.getD tid dfltTask).cancelCount =
          (w.tasks.getD tid dfltTask).cancelCount + 1 := by
  intro w w' h
  simp only [onToggleShowAnnotations] at h
  have hf := renderPage_ok_fields h
  simp only at hf
  refine ⟨hf.2.2.1, hf.2.1, hf.2.2.2.1, hf.2.2.2.2.2.2, ?_⟩
  intro tid hcur hlt
  have hc := renderPage_cancels (w := { w with showAnnotations := !w.showAnnotations })
    (by simpa using hcur) (by simpa using hlt) h
  simpa using hc

/-- Witness for the amended claim C6, at the concrete in-flight state
`inflightW`. -/
theorem toggleShowAnnotations_effects_witness :
    toggledW.scale = inflightW.scale ∧ toggledW.pageNum = inflightW.pageNum ∧
    toggledW.showAnnotations = !inflightW.showAnnotations ∧
    toggledW.rendersStarted = inflightW.rendersStarted ++ [inflightW.pageNum] ∧
    (toggledW.tasks.getD 0 dfltTask).cancelCount =
      (inflightW.tasks.getD 0 dfltTask).cancelCount + 1 := by
  have h := toggleShowAnnotations_effects inflightW toggledW rfl
  exact ⟨h.1, h.2.1, h.2.2.1, h.2.2.2.1, h.2.2.2.2 0 rfl (by decide)⟩

/-- A `queueRenderPage` call that succeeds never changes the navigation
fields. -/
lemma queueRenderPage_ok_fields {n : ℤ} {w w' : World}
    (h : queueRenderPage n w = .ok w') :
    w'.pdfDoc = w.pdfDoc ∧ w'.pageNum = w.pageNum ∧ w'.scale = w.scale := by
  unfold queueRenderPage at h
  by_cases hr : w.pageIsRendering
  · simp [hr] at h
    subst h
    simp
  · simp [hr] at h
    have hf := renderPage_ok_fields h
    exact ⟨hf.1, hf.2.1, hf.2.2.1⟩

/-- With a document loaded, `queueRenderPage` always succeeds. -/
lemma queueRenderPage_total {n : ℤ} {w : World} (h : w.pdfDoc.isSome) :
    ∃ w', queueRenderPage n w = .ok w' := by
  unfold queueRenderPage
  by_cases hr : w.pageIsRendering
  · exact ⟨{ w with pageNumIsPending := some n }, by simp [hr]⟩
  · simpa [hr] using renderPage_total (n := n) h

/-- Each navigation/zoom click succeeds and preserves `NavInv`. -/
lemma applyClick_inv {numPages : ℤ} {w : World} (c : Click) (hinv : NavInv numPages w) :
    ∃ w', applyClick c w = .ok w' ∧ NavInv numPages w' := by
  obtain ⟨hdoc, hp1, hpn, hs1, hs2, k, hk⟩ := hinv
  have hsome : w.pdfDoc.isSome := by rw [hdoc]; rfl
  cases c
  case prev =>
    simp only [applyClick, onPrevClick]
    by_cases h1 : w.pageNum ≤ 1
    · exact ⟨w, by simp [h1], hdoc, hp1, hpn, hs1, hs2, k, hk⟩
    · simp only [h1, if_false]
      obtain ⟨w', hw'⟩ := queueRenderPage_total
        (w := { w with pageNum := w.pageNum - 1 }) (n := w.pageNum - 1) (by simpa using hsome)
      refine ⟨w', hw', ?_⟩
      obtain ⟨hd, hpg, hsc⟩ := queueRenderPage_ok_fields hw'
      refine ⟨by simp [hd, hdoc], ?_, ?_, by simp [hsc, hs1], by simp [hsc, hs2], k, by simp [hsc, hk]⟩
      · simp only [hpg]
        omega
      · simp only [hpg]
        omega
  case next =>
    simp only [applyClick, onNextClick, hdoc]
    by_cases h1 : numPages ≤ w.pageNum
    · exact ⟨w, by simp [h1], hdoc, hp1, hpn, hs1, hs2, k, hk⟩
    · simp only [h1, if_false]
      obtain ⟨w', hw'⟩ := queueRenderPage_total
        (w := { w with pdfDoc := some numPages, pageNum := w.pageNum + 1 })
        (n := w.pageNum + 1) (by simp)
      refine ⟨w', hw', ?_⟩
      obtain ⟨hd, hpg, hsc⟩ := queueRenderPage_ok_fields hw'
      refine ⟨by simp [hd, hdoc], ?_, ?_, by simp [hsc, hs1], by simp [hsc, hs2], k, by simp [hsc, hk]⟩
      · simp only [hpg]
        omega
      · simp only [hpg]
        omega
  case zoomIn =>
    simp only [applyClick, onZoomInClick]
    by_cases h1 : maxScale ≤ w.scale
    · exact ⟨w, by simp [h1], hdoc, hp1, hpn, hs1, hs2, k, hk⟩
    · simp only [h1, if_false]
      obtain ⟨w', hw'⟩ := queueRenderPage_total
        (w := { w with scale := w.scale + 1/4 }) (n := w.pageNum) (by simpa using hsome)
      refine ⟨w', hw', ?_⟩
      obtain ⟨hd, hpg, hsc⟩ := queueRenderPage_ok_fields hw'
      have hklt : (k : ℚ) < 12 := by
        rw [maxScale] at h1
        rw [hk] at h1
        push_neg at h1
        linarith
      have hkZ : k < 12 := by exact_mod_cast hklt
      have hkle : ((k : ℚ)) ≤ 11 := by exact_mod_cast (by omega : k ≤ 11)
      refine ⟨by simp [hd, hdoc], by simp [hpg, hp1], by simp [hpg, hpn], ?_, ?_, k + 1, ?_⟩
      · simp only [hsc]
        rw [minScale] at hs1 ⊢
        linarith
      · simp only [hsc]
        rw [maxScale]
        rw [hk]
        linarith
      · simp only [hsc]
        rw [hk]
        push_cast
        ring
  case zoomOut =>
    simp only [applyClick, onZoomOutClick]
    by_cases h1 : w.scale ≤ minScale
    · exact ⟨w, by simp [h1], hdoc, hp1, hpn, hs1, hs2, k, hk⟩
    · simp only [h1, if_false]
      obtain ⟨w', hw'⟩ := queueRenderPage_total
        (w := { w with scale := w.scale - 1/4 }) (n := w.pageNum) (by simpa using hsome)
      refine ⟨w', hw', ?_⟩
      obtain ⟨hd, hpg, hsc⟩ := queueRenderPage_ok_fields hw'
      have hkgt : (2 : ℚ) < (k : ℚ) := by
        rw [minScale] at h1
        rw [hk] at h1
        push_neg at h1
        linarith
      have hkZ : 2 < k := by exact_mod_cast hkgt
      have hkge : (3 : ℚ) ≤ (k : ℚ) := by exact_mod_cast (by omega : (3 : ℤ) ≤ k)
      refine ⟨by simp [hd, hdoc], by simp [hpg, hp1], by simp [hpg, hpn], ?_, ?_, k - 1, ?_⟩
      · simp only [hsc]
        rw [minScale]
        rw [hk]
        linarith
      · simp only [hsc]
        rw [maxScale] at hs2 ⊢
        linarith
      · simp only [hsc]
        rw [hk]
        push_cast
        ring

/-- Any sequence of navigation/zoom clicks succeeds and preserves `NavInv`. -/
lemma runClicks_inv {numPages : ℤ} :
    ∀ (clicks : List Click) (w : World), NavInv numPages w →
      ∃ w', runClicks clicks w = .ok w' ∧ NavInv numPages w' := by
  intro clicks
  induction clicks with
  | nil => exact fun w h => ⟨w, rfl, h⟩
  | cons c cs ih =>
      intro w h
      obtain ⟨w1, hw1, hinv1⟩ := applyClick_inv c h
      obtain ⟨w', hw', hinv'⟩ := ih w1 hinv1
      refine ⟨w', ?_, hinv'⟩
      simp only [runClicks, hw1]
      exact hw'

/-- Claim C7 (confirmed): starting from the initial viewer state (scale 1.0,
current page 1) with a loaded document of at least one page, every sequence
of prev-page, next-page, zoom-in and zoom-out clicks keeps the scale within
`[minScale, maxScale]` = [0.5, 3.0] and the current page within
`[1, pageCount]`. -/
theorem nav_zoom_clicks_preserve_bounds :
    ∀ (numPages : ℤ) (docId : Option ℤ) (clicks : List Click) (w' : World),
      1 ≤ numPages →
      runClicks clicks (initState (some numPages) docId) = .ok w' →
      minScale ≤ w'.scale ∧ w'.scale ≤ maxScale ∧
        1 ≤ w'.pageNum ∧ w'.pageNum ≤ numPages := by
  intro numPages docId clicks w' hn hrun
  have hinv0 : NavInv numPages (initState (some numPages) docId) := by
    refine ⟨rfl, le_refl _, hn, ?_, ?_, 4, ?_⟩ <;> norm_num [initState, minScale, maxScale]
  obtain ⟨w'', hok, hinv⟩ := runClicks_inv clicks _ hinv0
  rw [hrun] at hok
  obtain rfl : w' = w'' := by injection hok
  exact ⟨hinv.2.2.2.1, hinv.2.2.2.2.1, hinv.2.1, hinv.2.2.1⟩

/-- Witness for claim C7: one next-page click on a 3-page document lands in
the concrete state `c7w`, which satisfies the bounds. -/
theorem nav_zoom_clicks_preserve_bounds_witness :
    minScale ≤ c7w.scale ∧ c7w.scale ≤ maxScale ∧ 1 ≤ c7w.pageNum ∧ c7w.pageNum ≤ 3 :=
  nav_zoom_clicks_preserve_bounds 3 none [.next] c7w (by decide) (by rfl)

/-- Claim C4 (confirmed): for every document point and every viewport state
with scale in [0.5, 3.0], rotation in {0, 90, 180, 270} and device pixel
ratio in {1, 2}, mapping through the forward transform used by the annotation
drawing code and back through the inverse used by the pointer handlers
returns the original point within 1e-6 (in fact exactly, since the two maps
are multiplication and division by the same nonzero scale). -/
theorem toScreen_toDoc_roundtrip :
    ∀ (p : ℚ × ℚ) (vp : Viewport),
      1/2 ≤ vp.scale → vp.scale ≤ 3 →
      vp.rotation ∈ [0, 90, 180, 270] → vp.dpr ∈ [(1 : ℚ), 2] →
      |(toDoc (toScreen p vp) vp).1 - p.1| ≤ 1/1000000 ∧
      |(toDoc (toScreen p vp) vp).2 - p.2| ≤ 1/1000000 := by
  intro p vp h1 h2 _ _
  have h0 : vp.scale ≠ 0 := ne_of_gt (by linarith)
  have e1 : p.1 * vp.scale / vp.scale = p.1 := mul_div_cancel_right₀ _ h0
  have e2 : p.2 * vp.scale / vp.scale = p.2 := mul_div_cancel_right₀ _ h0
  constructor <;> simp [toDoc, toScreen, e1, e2]

/-- Witness for claim C4 at the point (7, 9) with scale 2, rotation 90 and
device pixel ratio 2. -/
theorem toScreen_toDoc_roundtrip_witness :
    |(toDoc (toScreen ((7 : ℚ), (9 : ℚ)) ⟨2, 90, 2⟩) ⟨2, 90, 2⟩).1 - 7| ≤ 1/1000000 ∧
    |(toDoc (toScreen ((7 : ℚ), (9 : ℚ)) ⟨2, 90, 2⟩) ⟨2, 90, 2⟩).2 - 9| ≤ 1/1000000 :=
  toScreen_toDoc_roundtrip (7, 9) ⟨2, 90, 2⟩ (by norm_num) (by norm_num)
    (by simp) (by simp)

/-- Claim C8 (confirmed): the overlay redraw issued by `drawAnnotations`
coincides, for every page and viewer state, with the specification's
description — clear first; if the toggle is off leave the surface cleared;
otherwise stroke exactly the annotations of the requested page at their
document rectangles scaled by the current scale, with line width 2 and red
stroke, or line width 3 and orange stroke when the annotation's `id` equals
the highlighted annotation's `id`, each with its label text at a fixed 5px
offset from the rectangle's top-left corner. -/
theorem drawAnnotations_matches_spec :
    ∀ (pageNum : ℤ) (w : World), drawAnnotations pageNum w = drawAnnotationsSpec pageNum w := by
  intro pageNum w
  unfold drawAnnotations drawAnnotationsSpec
  cases hshow : w.showAnnotations
  · simp [hshow]
  · simp only [hshow, Bool.not_true, Bool.false_eq_true, if_false, if_neg]
    refine congrArg (List.cons DrawOp.clear) (List.flatMap_congr ?_)
    intro a _
    unfold annotationOps
    cases hh : w.highlightedAnnot with
    | none => simp
    | some hl =>
        by_cases hid : a.id = hl.id
        · simp [hid]
        · simp [hid]

/-- Claim C9 (confirmed): with no document loaded (`state.documentId` null or
unset), `fetchAnnotations` returns immediately — no network request is
issued and the state (annotation set, list UI counter, render state) is
completely unchanged, whatever response the network would have given. -/
theorem fetchAnnotations_no_document_noop :
    ∀ (w : World) (response : Except Unit (List Annot)),
      w.documentId = none → fetchAnnotations response w = .ok (w, false) := by
  intro w r h
  simp [fetchAnnotations, h]

/-- Witness for claim C9 at the initial state with no document. -/
theorem fetchAnnotations_no_document_noop_witness :
    fetchAnnotations (.ok []) (initState none none) = .ok (initState none none, false) :=
  fetchAnnotations_no_document_noop (initState none none) (.ok []) rfl

/-- Claim C10 (confirmed): the next-page handler reads
`state.pdfDoc.numPages` before any guard, so with no document loaded it
throws a null-dereference `TypeError` in every state, while the prev-page
handler in the same situation returns safely without mutating anything,
because its `pageNum <= 1` guard fires first (`pageNum` starts at 1 and is
still 1 whenever no document has ever been loaded). -/
theorem nextClick_null_pdfDoc_throws_prevClick_safe :
    (∀ w : World, w.pdfDoc = none → onNextClick w = .error .nullDeref) ∧
    (∀ w : World, w.pdfDoc = none → w.pageNum ≤ 1 → onPrevClick w = .ok w) := by
  constructor
  · intro w h
    simp [onNextClick, h]
  · intro w _ hp
    simp [onPrevClick, hp]

/-- Witness for claim C10 at the initial state with no document. -/
theorem nextClick_null_pdfDoc_throws_prevClick_safe_witness :
    onNextClick (initState none none) = .error .nullDeref ∧
    onPrevClick (initState none none) = .ok (initState none none) :=
  ⟨nextClick_null_pdfDoc_throws_prevClick_safe.1 (initState none none) rfl,
   nextClick_null_pdfDoc_throws_prevClick_safe.2 (initState none none) rfl (by decide)⟩

/-- A proposal surviving the `mouseup` size check has both extents at least
10 in the units the drag was captured in (document-space units). -/
lemma handleMouseUp_min {sx sy ex ey scale x y wd ht : ℚ}
    (h : handleMouseUp sx sy ex ey scale = .proposal x y wd ht) :
    10 ≤ wd ∧ 10 ≤ ht := by
  simp only [handleMouseUp] at h
  by_cases hw : (ex / scale - sx / scale) < 0 <;>
    by_cases hh : (ey / scale - sy / scale) < 0 <;>
      simp only [hw, hh, if_true, if_false] at h <;>
        split_ifs at h with hs <;>
          first
          | exact MouseUpResult.noConfusion h
          | (injection h with h1 h2 h3 h4
             subst h3
             subst h4
             push_neg at hs
             exact hs)

/-- Claim C5 (counterexample): at scale 0.5, a drag of 6 device pixels in
each direction (device pixel ratio 1) normalizes to a 12 by 12
document-space rectangle, which passes the size check and is submitted on
confirmation — yet its size in device space at the time of creation is
6 < 10 device pixels. This refutes the claim that every annotation
submitted to the backend measures at least 10 pixels in device space. -/
theorem minSize_check_is_document_space_not_device :
    submittedRect true (handleMouseUp 0 0 6 6 (1/2)) = some (0, 0, 12, 12) ∧
    deviceSize 12 (1/2) 1 < 10 := by
  constructor
  · have : handleMouseUp 0 0 6 6 (1/2) = .proposal 0 0 12 12 := by
      norm_num [handleMouseUp]
    rw [this]
    rfl
  · norm_num [deviceSize]

/-- Claim C5 (amended): the minimum-size threshold is 10 in document-space
units — the units captured at drag time, i.e. CSS pixels divided by the
scale — not in device pixels: every rectangle submitted to the backend has
width ≥ 10 and height ≥ 10 in document units (so ≥ 10·scale·dpr device
pixels). The claim's concrete example still holds: a drag producing a
normalized 8 by 20 rectangle at scale 1 is discarded locally and nothing is
ever submitted, whatever the modal would answer. -/
theorem submitted_annotation_min_size_doc_units :
    (∀ (sx sy ex ey scale x y wd ht : ℚ) (confirmed : Bool),
        submittedRect confirmed (handleMouseUp sx sy ex ey scale) = some (x, y, wd, ht) →
        10 ≤ wd ∧ 10 ≤ ht) ∧
    handleMouseUp 0 0 8 20 1 = .tooSmall ∧
    (∀ confirmed : Bool, submittedRect confirmed (handleMouseUp 0 0 8 20 1) = none) := by
  refine ⟨?_, ?_, ?_⟩
  · intro sx sy ex ey scale x y wd ht confirmed h
    cases hr : handleMouseUp sx sy ex ey scale with
    | tooSmall =>
        rw [hr] at h
        cases confirmed <;> exact Option.noConfusion h
    | proposal a b c d =>
        rw [hr] at h
        cases confirmed
        · exact Option.noConfusion h
        · have := handleMouseUp_min hr
          simp only [submittedRect, Option.some.injEq, Prod.mk.injEq] at h
          obtain ⟨-, -, hc, hd⟩ := h
          exact ⟨hc ▸ this.1, hd ▸ this.2⟩
  · norm_num [handleMouseUp]
  · intro confirmed
    have : handleMouseUp 0 0 8 20 1 = .tooSmall := by norm_num [handleMouseUp]
    rw [this]
    cases confirmed <;> rfl

/-- Witness for the amended claim C5: an 11 by 11 drag at scale 1, confirmed
in the modal, is submitted and indeed measures at least 10 by 10. -/
theorem submitted_annotation_min_size_doc_units_witness :
    (10 : ℚ) ≤ 11 ∧ (10 : ℚ) ≤ 11 :=
  submitted_annotation_min_size_doc_units.1 0 0 11 11 1 0 0 11 11 true
    (by norm_num [handleMouseUp, submittedRect])
